import Mathlib

/-!
Shallow embedding of the Bolt fleet-API client
(`src/bolt/bolt_client.py`, `src/bolt_schemas.py`).

JSON values are modelled by an inductive `Json` (numbers as integers: the
client performs no floating-point arithmetic, it only moves numbers
between request bodies and record fields).  An HTTP response is its
status code, the result of `response.json()` (`none` when the body is
not parseable JSON), and the raw body text.  Network interaction is
modelled by oracles: `tok : Nat → Resp` gives the response of the n-th
token-endpoint request of a call, `res : Nat → Resp` the response of the
n-th resource-endpoint request.  Python exceptions are modelled by
`Except BoltError`; the mutable `self.access_token` by explicit state
passing of `Client`.
-/

/-- A JSON value, as returned by `response.json()`. -/
inductive Json : Type where
  | null : Json
  | bool (b : Bool) : Json
  | num (n : Int) : Json
  | str (s : String) : Json
  | arr (xs : List Json) : Json
  | obj (kvs : List (String × Json)) : Json

/-- Python truthiness of a JSON value (`if not token:` etc.). -/
def Json.truthy : Json → Bool
  | .null => false
  | .bool b => b
  | .num n => n != 0
  | .str s => s != ""
  | .arr xs => !xs.isEmpty
  | .obj kvs => !kvs.isEmpty

/-- Whether a JSON value is a string (distinguishes string tokens from
other truthy values the token endpoint could return). -/
def Json.isStr : Json → Bool
  | .str _ => true
  | _ => false

/-- Python `x == 503` for a JSON value `x` (true exactly for the number 503). -/
def Json.isCode503 : Json → Bool
  | .num n => n == 503
  | _ => false

/-- Exceptions raised by the client, tagged with the information the
corresponding Python `Exception` message carries. -/
inductive BoltError : Type where
  /-- "Failed to get access token: {status} {text}" -/
  | authError (status : Nat) (text : String)
  /-- "No access token received in response" -/
  | noTokenError
  /-- "Failed to get {resource}: {status} {text}" -/
  | apiError (endpoint : String) (status : Nat) (text : String)
  /-- Python `AttributeError` (calling `.get` on a non-dict). -/
  | attributeError
  /-- `response.json()` raised (body not parseable as JSON). -/
  | jsonDecodeError
  /-- pydantic `ValidationError`. -/
  | validationError
  /-- Python `TypeError` (e.g. `**`-unpacking a non-mapping). -/
  | typeError
deriving DecidableEq

/-- An HTTP response: status code, the parse `response.json()` would
produce (`none` when it would raise), and the raw text. -/
structure Resp : Type where
  status : Nat
  jsonBody : Option Json
  text : String

/-- Python `d.get(k, default)`: raises `AttributeError` unless the value
is a dict; the default is only used when the key is absent. -/
def dictGetD (j : Json) (k : String) (d : Json) : Except BoltError Json :=
  match j with
  | .obj kvs =>
      match kvs.lookup k with
      | some v => .ok v
      | none => .ok d
  | _ => .error .attributeError

/-- `Client.get_access_token` applied to the token-endpoint response:
non-200 raises with status and body; a falsy `access_token` field (missing,
null, empty) raises "no token received"; otherwise the token is returned.
No client state is read or written (pure in `Resp`). -/
def get_access_token (resp : Resp) : Except BoltError Json :=
  if resp.status ≠ 200 then
    .error (.authError resp.status resp.text)
  else
    match resp.jsonBody with
    | none => .error .jsonDecodeError
    | some j =>
        match j with
        | .obj kvs =>
            if ((kvs.lookup "access_token").getD Json.null).truthy then
              .ok ((kvs.lookup "access_token").getD Json.null)
            else
              .error .noTokenError
        | _ => .error .attributeError

/-- The client's state: immutable credentials and the mutable token. -/
structure Client : Type where
  client_id : String
  client_secret : String
  base_url : String
  access_token : Option Json

/-- Python falsiness of `self.access_token` (`None` or a falsy value). -/
def tokenAbsent : Option Json → Bool
  | none => true
  | some t => !t.truthy

/-- `Client._ensure_token`: fetch and store a token when the held one is
falsy; otherwise a no-op.  `i` is the index of the next token-endpoint
request; the returned index counts fetches performed. -/
def ensure_token (c : Client) (tok : Nat → Resp) (i : Nat) :
    Except BoltError (Client × Nat) :=
  if tokenAbsent c.access_token then
    match get_access_token (tok i) with
    | .ok t => .ok ({ c with access_token := some t }, i + 1)
    | .error e => .error e
  else
    .ok (c, i)

/-- `Client._refresh_token_if_needed`.  The Python `try:` block wraps both
the JSON inspection and the token refresh, so an exception raised by the
refresh itself is also caught by `except Exception:`; the handler then
re-checks status 401 and, if it holds, makes a further token fetch.
`.error i'` of the inner step means "an exception was caught, with the
token-fetch index now at `i'`" (the index advances when the exception came
from a fetch that was attempted). -/
def refresh_token_if_needed (c : Client) (resp : Resp) (tok : Nat → Resp)
    (i : Nat) : Except BoltError (Bool × Client × Nat) :=
  let tryStep : Except Nat (Bool × Client × Nat) :=
    match resp.jsonBody with
    | none => .error i
    | some j =>
        if resp.status == 401 then
          match get_access_token (tok i) with
          | .ok t => .ok (true, { c with access_token := some t }, i + 1)
          | .error _ => .error (i + 1)
        else
          match j with
          | .obj kvs =>
              if ((kvs.lookup "code").getD Json.null).isCode503 then
                match get_access_token (tok i) with
                | .ok t => .ok (true, { c with access_token := some t }, i + 1)
                | .error _ => .error (i + 1)
              else
                .ok (false, c, i)
          | _ => .error i
  match tryStep with
  | .ok r => .ok r
  | .error j =>
      if resp.status == 401 then
        match get_access_token (tok j) with
        | .ok t => .ok (true, { c with access_token := some t }, j + 1)
        | .error e => .error e
      else
        .ok (false, c, j)

/-- One resource-endpoint POST: target URL, bearer token used in the
`Authorization` header, JSON request body. -/
structure ResourceReq : Type where
  url : String
  token : Json
  body : List (String × Json)

/-- The outcome of one resource-method call: the Python return value or
exception, the client state afterwards (token mutations survive an
exception), and the trace of resource-endpoint requests issued. -/
structure CallOutcome (α : Type) : Type where
  result : Except BoltError (List α)
  client : Client
  requests : List ResourceReq

/-- The list comprehension `[Schema(**item) for item in items]`: validates
left to right, raising at the first failure. -/
def mapValidate {α : Type} (f : Json → Except BoltError α) :
    List Json → Except BoltError (List α)
  | [] => .ok []
  | x :: xs =>
      match f x with
      | .error e => .error e
      | .ok a =>
          match mapValidate f xs with
          | .error e => .error e
          | .ok as => .ok (a :: as)

/-- Processing of the (possibly retried) final response, shared by the
four resource methods: raise `ApiError` on a non-200 status; otherwise
extract `response.json().get("data", {}).get(field, [])` and validate
each item of the list. -/
def finalStep {α : Type} (endpoint field : String)
    (validate : Json → Except BoltError α) (resp : Resp) :
    Except BoltError (List α) :=
  if resp.status ≠ 200 then
    .error (.apiError endpoint resp.status resp.text)
  else
    match resp.jsonBody with
    | none => .error .jsonDecodeError
    | some j =>
        match dictGetD j "data" (.obj []) with
        | .error e => .error e
        | .ok dataVal =>
            match dictGetD dataVal field (.arr []) with
            | .error e => .error e
            | .ok listVal =>
                match listVal with
                | .arr items => mapValidate validate items
                | _ => .error .typeError

/-- The template shared verbatim by the four resource methods:
`_ensure_token()`; POST the body; `_refresh_token_if_needed` and, when it
returns true, POST the identical body once more with the new token; then
`finalStep` on the last response received. -/
def runResource {α : Type} (c : Client) (endpoint : String)
    (body : List (String × Json)) (field : String)
    (validate : Json → Except BoltError α)
    (tok : Nat → Resp) (res : Nat → Resp) : CallOutcome α :=
  match ensure_token c tok 0 with
  | .error e => ⟨.error e, c, []⟩
  | .ok (c1, i1) =>
      let url := c.base_url ++ endpoint
      let req1 : ResourceReq := ⟨url, (c1.access_token).getD Json.null, body⟩
      let resp1 := res 0
      match refresh_token_if_needed c1 resp1 tok i1 with
      | .error e => ⟨.error e, c1, [req1]⟩
      | .ok (refreshed, c2, _) =>
          if refreshed then
            ⟨finalStep endpoint field validate (res 1), c2,
             [req1, ⟨url, (c2.access_token).getD Json.null, body⟩]⟩
          else
            ⟨finalStep endpoint field validate resp1, c2, [req1]⟩

/-- `PortalStatus` enumeration from `src/bolt_schemas.py`. -/
inductive PortalStatus : Type where
  | active
  | inactive
deriving DecidableEq

/-- The `.value` of a `PortalStatus` member. -/
def PortalStatus.value : PortalStatus → String
  | .active => "active"
  | .inactive => "inactive"

/-- Hexadecimal digit test for UUID strings. -/
def isHexChar (c : Char) : Bool :=
  c.isDigit || ('a' ≤ c && c ≤ 'f') || ('A' ≤ c && c ≤ 'F')

/-- Canonical 8-4-4-4-12 UUID shape (the form a UUID-typed field accepts
and round-trips; `uuid.UUID`/pydantic reject strings not UUID-shaped). -/
def isUUID (s : String) : Bool :=
  let cs := s.toList
  cs.length == 36 &&
  (List.range 36).all fun i =>
    if i == 8 || i == 13 || i == 18 || i == 23 then
      cs.getD i ' ' == '-'
    else
      isHexChar (cs.getD i ' ')

/-- Coercion of a JSON value into a declared `int` field.  Modelled from
the spec's validation contract for the pydantic dependency: a numeric
value is accepted, a non-numeric value is rejected. -/
def coerceInt : Json → Option Int
  | .num n => some n
  | _ => none

/-- Coercion into a declared `float` field (JSON numbers are modelled as
integers; any JSON number is accepted). -/
def coerceFloat : Json → Option Int
  | .num n => some n
  | _ => none

/-- Coercion into a declared `str` field. -/
def coerceStr : Json → Option String
  | .str s => some s
  | _ => none

/-- Coercion into a declared `bool` field. -/
def coerceBool : Json → Option Bool
  | .bool b => some b
  | _ => none

/-- Coercion into a declared `UUID` field: a UUID-shaped string, kept in
its string form. -/
def coerceUUID : Json → Option String
  | .str s => if isUUID s then some s else none
  | _ => none

/-- Coercion into a declared `PortalStatus` field: the member's value. -/
def coercePortal : Json → Option PortalStatus
  | .str s =>
      if s = "active" then some .active
      else if s = "inactive" then some .inactive
      else none
  | _ => none

/-- A required pydantic field: missing or uncoercible raises
`ValidationError`. -/
def validateReqField {α : Type} (kvs : List (String × Json)) (key : String)
    (coerce : Json → Option α) : Except BoltError α :=
  match kvs.lookup key with
  | none => .error .validationError
  | some v =>
      match coerce v with
      | some a => .ok a
      | none => .error .validationError

/-- An optional pydantic field (`Optional[T] = None`): missing or null
yields the absent marker; a present value must coerce. -/
def validateOptField {α : Type} (kvs : List (String × Json)) (key : String)
    (coerce : Json → Option α) : Except BoltError (Option α) :=
  match kvs.lookup key with
  | none => .ok none
  | some .null => .ok none
  | some v =>
      match coerce v with
      | some a => .ok (some a)
      | none => .error .validationError

/-- `Vehicle` record (`src/bolt_schemas.py`): all fields required. -/
structure Vehicle : Type where
  id : Int
  model : String
  year : Int
  reg_number : String
  uuid : String
  state : PortalStatus
deriving DecidableEq

/-- `Vehicle(**item)`: pydantic construction/validation. -/
def Vehicle.validate (j : Json) : Except BoltError Vehicle :=
  match j with
  | .obj kvs => do
      let id ← validateReqField kvs "id" coerceInt
      let model ← validateReqField kvs "model" coerceStr
      let year ← validateReqField kvs "year" coerceInt
      let reg ← validateReqField kvs "reg_number" coerceStr
      let uuid ← validateReqField kvs "uuid" coerceUUID
      let st ← validateReqField kvs "state" coercePortal
      .ok ⟨id, model, year, reg, uuid, st⟩
  | _ => .error .typeError

/-- `Driver` record: all fields required. -/
structure Driver : Type where
  driver_uuid : String
  partner_uuid : String
  first_name : String
  last_name : String
  email : String
  phone : String
  state : PortalStatus
  has_cash_payment : Bool
deriving DecidableEq

/-- `Driver(**item)`: pydantic construction/validation. -/
def Driver.validate (j : Json) : Except BoltError Driver :=
  match j with
  | .obj kvs => do
      let du ← validateReqField kvs "driver_uuid" coerceUUID
      let pu ← validateReqField kvs "partner_uuid" coerceUUID
      let fn ← validateReqField kvs "first_name" coerceStr
      let ln ← validateReqField kvs "last_name" coerceStr
      let em ← validateReqField kvs "email" coerceStr
      let ph ← validateReqField kvs "phone" coerceStr
      let st ← validateReqField kvs "state" coercePortal
      let cash ← validateReqField kvs "has_cash_payment" coerceBool
      .ok ⟨du, pu, fn, ln, em, ph, st, cash⟩
  | _ => .error .typeError

/-- `FleetStateLog` record: all fields required. -/
structure FleetStateLog : Type where
  created : Int
  state : String
  driver_uuid : String
  vehicle_uuid : String
  lat : Int
  lng : Int
deriving DecidableEq

/-- `FleetStateLog(**item)`: pydantic construction/validation. -/
def FleetStateLog.validate (j : Json) : Except BoltError FleetStateLog :=
  match j with
  | .obj kvs => do
      let cr ← validateReqField kvs "created" coerceInt
      let st ← validateReqField kvs "state" coerceStr
      let du ← validateReqField kvs "driver_uuid" coerceUUID
      let vu ← validateReqField kvs "vehicle_uuid" coerceUUID
      let lat ← validateReqField kvs "lat" coerceFloat
      let lng ← validateReqField kvs "lng" coerceFloat
      .ok ⟨cr, st, du, vu, lat, lng⟩
  | _ => .error .typeError

/-- `OrderStop` record: all fields optional. -/
structure OrderStop : Type where
  lat : Option Int
  lng : Option Int
  real_lat : Option Int
  real_lng : Option Int
  type : Option String
deriving DecidableEq

/-- `OrderStop` validation (used nested inside `FleetOrder`). -/
def OrderStop.validate (j : Json) : Except BoltError OrderStop :=
  match j with
  | .obj kvs => do
      let lat ← validateOptField kvs "lat" coerceFloat
      let lng ← validateOptField kvs "lng" coerceFloat
      let rlat ← validateOptField kvs "real_lat" coerceFloat
      let rlng ← validateOptField kvs "real_lng" coerceFloat
      let ty ← validateOptField kvs "type" coerceStr
      .ok ⟨lat, lng, rlat, rlng, ty⟩
  | _ => .error .validationError

/-- `OrderPrice` record: all fields optional. -/
structure OrderPrice : Type where
  booking_fee : Option Int
  cancellation_fee : Option Int
  cash_discount : Option Int
  net_earnings : Option Int
  tip : Option Int
  commission : Option Int
  in_app_discount : Option Int
  toll_fee : Option Int
  ride_price : Option Int
deriving DecidableEq

/-- `OrderPrice` validation (used nested inside `FleetOrder`). -/
def OrderPrice.validate (j : Json) : Except BoltError OrderPrice :=
  match j with
  | .obj kvs => do
      let bf ← validateOptField kvs "booking_fee" coerceFloat
      let cf ← validateOptField kvs "cancellation_fee" coerceFloat
      let cd ← validateOptField kvs "cash_discount" coerceFloat
      let ne ← validateOptField kvs "net_earnings" coerceFloat
      let tip ← validateOptField kvs "tip" coerceFloat
      let com ← validateOptField kvs "commission" coerceFloat
      let iad ← validateOptField kvs "in_app_discount" coerceFloat
      let tf ← validateOptField kvs "toll_fee" coerceFloat
      let rp ← validateOptField kvs "ride_price" coerceFloat
      .ok ⟨bf, cf, cd, ne, tip, com, iad, tf, rp⟩
  | _ => .error .validationError

/-- Coercion into `Optional[List[OrderStop]]`: a JSON array whose every
element validates as an `OrderStop`. -/
def coerceStops (j : Json) : Option (List OrderStop) :=
  match j with
  | .arr items =>
      match mapValidate OrderStop.validate items with
      | .ok ss => some ss
      | .error _ => none
  | _ => none

/-- Coercion into `Optional[OrderPrice]`. -/
def coercePrice (j : Json) : Option OrderPrice :=
  match OrderPrice.validate j with
  | .ok p => some p
  | .error _ => none

/-- `FleetOrder` record: all fields optional. -/
structure FleetOrder : Type where
  order_reference : Option String
  driver_name : Option String
  payment_method : Option String
  driver_uuid : Option String
  driver_phone : Option String
  partner_uuid : Option String
  payment_confirmed_timestamp : Option Int
  order_created_timestamp : Option Int
  order_status : Option String
  vehicle_model : Option String
  vehicle_license_plate : Option String
  price_review_reason : Option String
  pickup_address : Option String
  ride_distance : Option Int
  order_accepted_timestamp : Option Int
  order_pickup_timestamp : Option Int
  order_drop_off_timestamp : Option Int
  order_finished_timestamp : Option Int
  order_stops : Option (List OrderStop)
  order_price : Option OrderPrice
deriving DecidableEq

/-- `FleetOrder(**item)`: pydantic construction/validation.  Note
`driver_uuid`/`partner_uuid` are declared `Optional[str]` here (plain
strings, no UUID shape check), unlike in `Driver`. -/
def FleetOrder.validate (j : Json) : Except BoltError FleetOrder :=
  match j with
  | .obj kvs => do
      let oref ← validateOptField kvs "order_reference" coerceStr
      let dn ← validateOptField kvs "driver_name" coerceStr
      let pm ← validateOptField kvs "payment_method" coerceStr
      let du ← validateOptField kvs "driver_uuid" coerceStr
      let dp ← validateOptField kvs "driver_phone" coerceStr
      let pu ← validateOptField kvs "partner_uuid" coerceStr
      let pct ← validateOptField kvs "payment_confirmed_timestamp" coerceInt
      let oct ← validateOptField kvs "order_created_timestamp" coerceInt
      let ost ← validateOptField kvs "order_status" coerceStr
      let vm ← validateOptField kvs "vehicle_model" coerceStr
      let vlp ← validateOptField kvs "vehicle_license_plate" coerceStr
      let prr ← validateOptField kvs "price_review_reason" coerceStr
      let pa ← validateOptField kvs "pickup_address" coerceStr
      let rd ← validateOptField kvs "ride_distance" coerceFloat
      let oat ← validateOptField kvs "order_accepted_timestamp" coerceInt
      let opt ← validateOptField kvs "order_pickup_timestamp" coerceInt
      let odt ← validateOptField kvs "order_drop_off_timestamp" coerceInt
      let oft ← validateOptField kvs "order_finished_timestamp" coerceInt
      let stops ← validateOptField kvs "order_stops" coerceStops
      let price ← validateOptField kvs "order_price" coercePrice
      .ok ⟨oref, dn, pm, du, dp, pu, pct, oct, ost, vm, vlp, prr, pa, rd,
           oat, opt, odt, oft, stops, price⟩
  | _ => .error .typeError

/-- The portal-status argument as the caller passes it: either the
enumeration member or a raw string (the Python duck-typed
`portal_status.value if hasattr(portal_status, 'value') else portal_status`). -/
inductive PortalStatusArg : Type where
  | enum (s : PortalStatus)
  | raw (s : String)
deriving DecidableEq

/-- `portal_status.value if hasattr(portal_status, 'value') else portal_status`. -/
def portalStatusValue : PortalStatusArg → String
  | .enum s => s.value
  | .raw s => s

/-- Default for a missing `start_ts`:
`int((datetime.now() - timedelta(days=1)).timestamp())`, with `now` the
clock reading at that call site. -/
def defaultStartTs (startTs : Option Int) (now : Int) : Int :=
  match startTs with
  | some s => s
  | none => now - 86400

/-- Default for a missing `end_ts`: `int(datetime.now().timestamp())`,
with `now` the clock reading at that call site. -/
def defaultEndTs (endTs : Option Int) (now : Int) : Int :=
  match endTs with
  | some e => e
  | none => now

/-- Request body of `get_fleet_orders` (after defaulting timestamps). -/
def fleetOrdersBody (offset limit : Int) (company_ids : List Int)
    (s e : Int) : List (String × Json) :=
  [("offset", .num offset), ("limit", .num limit),
   ("company_ids", .arr (company_ids.map .num)),
   ("start_ts", .num s), ("end_ts", .num e),
   ("time_range_filter_type", .str "price_review")]

/-- Request body of `get_vehicles`. -/
def vehiclesBody (offset limit company_id : Int) (s e : Int)
    (portal_status : PortalStatusArg) : List (String × Json) :=
  [("offset", .num offset), ("limit", .num limit),
   ("company_id", .num company_id),
   ("start_ts", .num s), ("end_ts", .num e),
   ("portal_status", .str (portalStatusValue portal_status))]

/-- Request body of `get_drivers`. -/
def driversBody (offset limit company_id : Int) (s e : Int)
    (portal_status : PortalStatusArg) : List (String × Json) :=
  [("offset", .num offset), ("limit", .num limit),
   ("company_id", .num company_id),
   ("start_ts", .num s), ("end_ts", .num e),
   ("portal_status", .str (portalStatusValue portal_status))]

/-- Request body of `get_fleet_state_logs`. -/
def fleetStateLogsBody (offset limit company_id : Int) (s e : Int) :
    List (String × Json) :=
  [("offset", .num offset), ("limit", .num limit),
   ("company_id", .num company_id),
   ("start_ts", .num s), ("end_ts", .num e)]

/-- `Client.get_fleet_orders`.  `now1`/`now2` are the two `datetime.now()`
readings used by the `start_ts`/`end_ts` defaults (each read when the
corresponding argument is `None`). -/
def Client.get_fleet_orders (c : Client) (offset limit : Int)
    (company_ids : List Int) (start_ts end_ts : Option Int)
    (now1 now2 : Int) (tok res : Nat → Resp) : CallOutcome FleetOrder :=
  let s := defaultStartTs start_ts now1
  let e := defaultEndTs end_ts now2
  runResource c "/getFleetOrders" (fleetOrdersBody offset limit company_ids s e)
    "orders" FleetOrder.validate tok res

/-- `Client.get_vehicles`. -/
def Client.get_vehicles (c : Client) (offset limit company_id : Int)
    (portal_status : PortalStatusArg) (start_ts end_ts : Option Int)
    (now1 now2 : Int) (tok res : Nat → Resp) : CallOutcome Vehicle :=
  let s := defaultStartTs start_ts now1
  let e := defaultEndTs end_ts now2
  runResource c "/getVehicles" (vehiclesBody offset limit company_id s e portal_status)
    "vehicles" Vehicle.validate tok res

/-- `Client.get_drivers`. -/
def Client.get_drivers (c : Client) (offset limit company_id : Int)
    (portal_status : PortalStatusArg) (start_ts end_ts : Option Int)
    (now1 now2 : Int) (tok res : Nat → Resp) : CallOutcome Driver :=
  let s := defaultStartTs start_ts now1
  let e := defaultEndTs end_ts now2
  runResource c "/getDrivers" (driversBody offset limit company_id s e portal_status)
    "drivers" Driver.validate tok res

/-- `Client.get_fleet_state_logs`. -/
def Client.get_fleet_state_logs (c : Client) (offset limit company_id : Int)
    (start_ts end_ts : Option Int) (now1 now2 : Int) (tok res : Nat → Resp) :
    CallOutcome FleetStateLog :=
  let s := defaultStartTs start_ts now1
  let e := defaultEndTs end_ts now2
  runResource c "/getFleetStateLogs" (fleetStateLogsBody offset limit company_id s e)
    "state_logs" FleetStateLog.validate tok res

/-- `Client.__init__`: store credentials, set `access_token = None`, and
eagerly `_ensure_token()` (construction fails when the fetch fails). -/
def Client.init (client_id client_secret base_url : String)
    (tok : Nat → Resp) : Except BoltError Client :=
  match ensure_token ⟨client_id, client_secret, base_url, none⟩ tok 0 with
  | .ok (c, _) => .ok c
  | .error e => .error e
/-- A client holding a truthy token. -/
def tokenOk (c : Client) : Bool := !(tokenAbsent c.access_token)

/-- The condition under which `_refresh_token_if_needed` refreshes (the
spec's `needs_refresh`): status 401 (whatever the body), or a JSON-object
body whose `code` equals 503. -/
def needsRefreshTrigger (resp : Resp) : Bool :=
  resp.status == 401 ||
  (match resp.jsonBody with
   | some (.obj kvs) => ((kvs.lookup "code").getD .null).isCode503
   | _ => false)
/-- The `start_ts`/`end_ts` fields of the first request a call issued. -/
def requestTsFields {α : Type} (co : CallOutcome α) :
    Option (Option Json × Option Json) :=
  co.requests.head?.map fun r => (r.body.lookup "start_ts", r.body.lookup "end_ts")
theorem get_access_token_ok_truthy (r : Resp) (t : Json)
    (h : get_access_token r = .ok t) : t.truthy = true := by
  unfold get_access_token at h
  split at h
  · simp at h
  · cases hj : r.jsonBody with
    | none => rw [hj] at h; simp at h
    | some j =>
      rw [hj] at h
      cases j with
      | obj kvs =>
        simp only [] at h
        split at h
        · simp at h; subst h; assumption
        · simp at h
      | null => simp at h
      | bool b => simp at h
      | num n => simp at h
      | str s => simp at h
      | arr xs => simp at h

theorem refresh_of_trigger (c : Client) (resp : Resp) (tok : Nat → Resp)
    (i : Nat) (t : Json) (htr : needsRefreshTrigger resp = true)
    (hf : get_access_token (tok i) = .ok t) :
    refresh_token_if_needed c resp tok i =
      .ok (true, { c with access_token := some t }, i + 1) := by
  unfold needsRefreshTrigger at htr
  unfold refresh_token_if_needed
  by_cases h401 : resp.status == 401
  · cases hj : resp.jsonBody with
    | none => simp [hj, h401, hf]
    | some j => simp [hj, h401, hf]
  · simp only [h401, Bool.false_or] at htr
    cases hj : resp.jsonBody with
    | none => rw [hj] at htr; simp at htr
    | some j =>
      rw [hj] at htr
      cases j with
      | obj kvs =>
        simp only [] at htr
        simp [hj, h401, htr, hf]
      | null => simp at htr
      | bool b => simp at htr
      | num n => simp at htr
      | str s => simp at htr
      | arr xs => simp at htr

theorem refresh_of_no_trigger (c : Client) (resp : Resp) (tok : Nat → Resp)
    (i : Nat) (htr : needsRefreshTrigger resp = false) :
    refresh_token_if_needed c resp tok i = .ok (false, c, i) := by
  unfold needsRefreshTrigger at htr
  simp only [Bool.or_eq_false_iff] at htr
  obtain ⟨h401, hbody⟩ := htr
  unfold refresh_token_if_needed
  cases hj : resp.jsonBody with
  | none => simp [hj, h401]
  | some j =>
    rw [hj] at hbody
    cases j with
    | obj kvs =>
      simp only [] at hbody
      simp [hj, h401, hbody]
    | null => simp [hj, h401]
    | bool b => simp [hj, h401]
    | num n => simp [hj, h401]
    | str s => simp [hj, h401]
    | arr xs => simp [hj, h401]

theorem refresh_inv (c : Client) (resp : Resp) (tok : Nat → Resp)
    (i : Nat) (b : Bool) (c' : Client) (i' : Nat)
    (h : refresh_token_if_needed c resp tok i = .ok (b, c', i')) :
    (b = false ∧ c' = c) ∨
    (b = true ∧ ∃ t, get_access_token (tok (i' - 1)) = .ok t ∧
       c' = { c with access_token := some t }) := by
  unfold refresh_token_if_needed at h
  by_cases h401 : resp.status == 401
  · cases hj : resp.jsonBody with
    | none =>
      rw [hj] at h
      simp only [h401, if_true] at h
      cases hf : get_access_token (tok i) with
      | ok t =>
        rw [hf] at h
        simp at h
        obtain ⟨hb, hc, hi⟩ := h
        subst hb; subst hc; subst hi
        right
        exact ⟨rfl, t, by simpa using hf, rfl⟩
      | error e => rw [hf] at h; simp at h
    | some j =>
      rw [hj] at h
      simp only [h401, if_true] at h
      cases hf : get_access_token (tok i) with
      | ok t =>
        rw [hf] at h
        simp at h
        obtain ⟨hb, hc, hi⟩ := h
        subst hb; subst hc; subst hi
        right
        exact ⟨rfl, t, by simpa using hf, rfl⟩
      | error e =>
        rw [hf] at h
        simp only [h401, if_true] at h
        cases hf2 : get_access_token (tok (i + 1)) with
        | ok t =>
          rw [hf2] at h
          simp at h
          obtain ⟨hb, hc, hi⟩ := h
          subst hb; subst hc; subst hi
          right
          exact ⟨rfl, t, by simpa using hf2, rfl⟩
        | error e2 => rw [hf2] at h; simp at h
  · cases hj : resp.jsonBody with
    | none =>
      rw [hj] at h
      simp only [h401, if_false] at h
      simp at h
      obtain ⟨hb, hc, hi⟩ := h
      subst hb; subst hc
      left
      exact ⟨rfl, rfl⟩
    | some j =>
      rw [hj] at h
      simp only [h401, if_false] at h
      cases j with
      | obj kvs =>
        by_cases hcode : ((kvs.lookup "code").getD Json.null).isCode503
        · simp only [hcode, if_true] at h
          cases hf : get_access_token (tok i) with
          | ok t =>
            rw [hf] at h
            simp at h
            obtain ⟨hb, hc, hi⟩ := h
            subst hb; subst hc; subst hi
            right
            exact ⟨rfl, t, by simpa using hf, rfl⟩
          | error e =>
            rw [hf] at h
            simp only [h401, if_false] at h
            simp at h
            obtain ⟨hb, hc, hi⟩ := h
            subst hb; subst hc
            left
            exact ⟨rfl, rfl⟩
        · simp only [hcode, if_false] at h
          simp at h
          obtain ⟨hb, hc, hi⟩ := h
          subst hb; subst hc
          left
          exact ⟨rfl, rfl⟩
      | null =>
        simp [h401] at h
        obtain ⟨hb, hc, hi⟩ := h
        subst hb; subst hc
        left
        exact ⟨rfl, rfl⟩
      | bool b2 =>
        simp [h401] at h
        obtain ⟨hb, hc, hi⟩ := h
        subst hb; subst hc
        left
        exact ⟨rfl, rfl⟩
      | num n =>
        simp [h401] at h
        obtain ⟨hb, hc, hi⟩ := h
        subst hb; subst hc
        left
        exact ⟨rfl, rfl⟩
      | str s =>
        simp [h401] at h
        obtain ⟨hb, hc, hi⟩ := h
        subst hb; subst hc
        left
        exact ⟨rfl, rfl⟩
      | arr xs =>
        simp [h401] at h
        obtain ⟨hb, hc, hi⟩ := h
        subst hb; subst hc
        left
        exact ⟨rfl, rfl⟩

theorem ensure_token_of_tokenOk (c : Client) (tok : Nat → Resp) (i : Nat)
    (hc : tokenOk c = true) : ensure_token c tok i = .ok (c, i) := by
  unfold tokenOk at hc
  unfold ensure_token
  simp only [Bool.not_eq_true'] at hc
  simp [hc]

theorem ensure_token_ok_tokenOk (c c' : Client) (tok : Nat → Resp)
    (i i' : Nat) (h : ensure_token c tok i = .ok (c', i')) :
    tokenOk c' = true := by
  unfold ensure_token at h
  split at h
  · cases hf : get_access_token (tok i) with
    | ok t =>
      rw [hf] at h
      simp at h
      obtain ⟨hc, hi⟩ := h
      subst hc
      unfold tokenOk tokenAbsent
      simp [get_access_token_ok_truthy _ _ hf]
    | error e => rw [hf] at h; simp at h
  · rename_i habs
    simp at h
    obtain ⟨hc, hi⟩ := h
    subst hc
    unfold tokenOk
    simp only [Bool.not_eq_true', Bool.not_eq_false]
    simpa using habs

theorem runResource_retry {α : Type} (c : Client) (endpoint field : String)
    (body : List (String × Json)) (validate : Json → Except BoltError α)
    (tok res : Nat → Resp) (t0 t1 : Json)
    (hc : c.access_token = some t0) (ht0 : t0.truthy = true)
    (htr : needsRefreshTrigger (res 0) = true)
    (hf : get_access_token (tok 0) = .ok t1) :
    runResource c endpoint body field validate tok res =
      ⟨finalStep endpoint field validate (res 1),
       { c with access_token := some t1 },
       [⟨c.base_url ++ endpoint, t0, body⟩,
        ⟨c.base_url ++ endpoint, t1, body⟩]⟩ := by
  have he : ensure_token c tok 0 = .ok (c, 0) :=
    ensure_token_of_tokenOk c tok 0
      (by unfold tokenOk tokenAbsent; rw [hc]; simp [ht0])
  have hr := refresh_of_trigger c (res 0) tok 0 t1 htr hf
  unfold runResource
  rw [he]
  simp [hr, hc]

theorem runResource_no_refresh {α : Type} (c : Client) (endpoint field : String)
    (body : List (String × Json)) (validate : Json → Except BoltError α)
    (tok res : Nat → Resp) (t0 : Json)
    (hc : c.access_token = some t0) (ht0 : t0.truthy = true)
    (htr : needsRefreshTrigger (res 0) = false) :
    runResource c endpoint body field validate tok res =
      ⟨finalStep endpoint field validate (res 0), c,
       [⟨c.base_url ++ endpoint, t0, body⟩]⟩ := by
  have he : ensure_token c tok 0 = .ok (c, 0) :=
    ensure_token_of_tokenOk c tok 0
      (by unfold tokenOk tokenAbsent; rw [hc]; simp [ht0])
  have hr := refresh_of_no_trigger c (res 0) tok 0 htr
  unfold runResource
  rw [he]
  simp [hr, hc]

theorem runResource_tokenOk {α : Type} (c : Client) (endpoint field : String)
    (body : List (String × Json)) (validate : Json → Except BoltError α)
    (tok res : Nat → Resp) (hc : tokenOk c = true) :
    tokenOk (runResource c endpoint body field validate tok res).client = true := by
  unfold runResource
  rw [ensure_token_of_tokenOk c tok 0 hc]
  cases hr : refresh_token_if_needed c (res 0) tok 0 with
  | error e => simpa [hr] using hc
  | ok trip =>
    obtain ⟨b, c2, i2⟩ := trip
    rcases refresh_inv c (res 0) tok 0 b c2 i2 hr with ⟨hb, hcc⟩ | ⟨hb, t, hft, hcc⟩
    · subst hcc
      cases b <;> simpa [hr] using hc
    · subst hcc
      cases b <;>
        simp [hr, tokenOk, tokenAbsent, get_access_token_ok_truthy _ _ hft]

theorem finalStep_not200 {α : Type} (endpoint field : String)
    (validate : Json → Except BoltError α) (resp : Resp)
    (h : resp.status ≠ 200) :
    finalStep endpoint field validate resp =
      .error (.apiError endpoint resp.status resp.text) := by
  unfold finalStep
  simp [h]

theorem finalStep_no_data {α : Type} (endpoint field : String)
    (validate : Json → Except BoltError α) (resp : Resp)
    (kvs : List (String × Json)) (h200 : resp.status = 200)
    (hbody : resp.jsonBody = some (.obj kvs))
    (hd : kvs.lookup "data" = none) :
    finalStep endpoint field validate resp = .ok [] := by
  unfold finalStep
  simp [h200, hbody, dictGetD, hd, mapValidate]

theorem finalStep_no_field {α : Type} (endpoint field : String)
    (validate : Json → Except BoltError α) (resp : Resp)
    (kvs dkvs : List (String × Json)) (h200 : resp.status = 200)
    (hbody : resp.jsonBody = some (.obj kvs))
    (hd : kvs.lookup "data" = some (.obj dkvs))
    (hdf : dkvs.lookup field = none) :
    finalStep endpoint field validate resp = .ok [] := by
  unfold finalStep
  simp [h200, hbody, dictGetD, hd, hdf, mapValidate]

theorem finalStep_items {α : Type} (endpoint field : String)
    (validate : Json → Except BoltError α) (resp : Resp)
    (kvs dkvs : List (String × Json)) (items : List Json)
    (h200 : resp.status = 200)
    (hbody : resp.jsonBody = some (.obj kvs))
    (hd : kvs.lookup "data" = some (.obj dkvs))
    (hdf : dkvs.lookup field = some (.arr items)) :
    finalStep endpoint field validate resp = mapValidate validate items := by
  unfold finalStep
  simp [h200, hbody, dictGetD, hd, hdf]

theorem finalStep_data_null {α : Type} (endpoint field : String)
    (validate : Json → Except BoltError α) (resp : Resp)
    (kvs : List (String × Json)) (h200 : resp.status = 200)
    (hbody : resp.jsonBody = some (.obj kvs))
    (hd : kvs.lookup "data" = some .null) :
    finalStep endpoint field validate resp = .error .attributeError := by
  unfold finalStep
  simp [h200, hbody, dictGetD, hd]
theorem except_bind_ok {α β ε : Type} (a : α) (f : α → Except ε β) :
    (Except.ok a >>= f) = f a := rfl

theorem except_bind_error {α β ε : Type} (e : ε) (f : α → Except ε β) :
    ((Except.error e : Except ε α) >>= f) = .error e := rfl

theorem validateReqField_error {α : Type} (kvs : List (String × Json))
    (k : String) (co : Json → Option α) (e : BoltError)
    (h : validateReqField kvs k co = .error e) : e = .validationError := by
  unfold validateReqField at h
  split at h
  · simp at h; exact h.symm
  · split at h
    · simp at h
    · simp at h; exact h.symm
theorem requestTsFields_runResource {α : Type} (c : Client)
    (endpoint field : String) (body : List (String × Json))
    (validate : Json → Except BoltError α) (tok res : Nat → Resp) (t0 : Json)
    (hc : c.access_token = some t0) (ht0 : t0.truthy = true)
    (htr : needsRefreshTrigger (res 0) = false) :
    requestTsFields (runResource c endpoint body field validate tok res) =
      some (body.lookup "start_ts", body.lookup "end_ts") := by
  rw [runResource_no_refresh c endpoint field body validate tok res t0 hc ht0 htr]
  rfl
theorem runResource_requests_shape {α : Type} (c : Client)
    (endpoint field : String) (body : List (String × Json))
    (validate : Json → Except BoltError α) (tok res : Nat → Resp) :
    (runResource c endpoint body field validate tok res).requests.length ≤ 2 ∧
    (∀ r1 r2,
       (runResource c endpoint body field validate tok res).requests = [r1, r2] →
       r1.url = r2.url ∧ r1.body = r2.body) := by
  unfold runResource
  cases he : ensure_token c tok 0 with
  | error e => simp
  | ok p =>
    obtain ⟨c1, i1⟩ := p
    cases hr : refresh_token_if_needed c1 (res 0) tok i1 with
    | error e => simp [hr]
    | ok trip =>
      obtain ⟨b, c2, i2⟩ := trip
      cases b with
      | false => simp [hr]
      | true =>
        simp only [hr]
        constructor
        · simp
        · intro r1 r2 hreq
          simp at hreq
          obtain ⟨h1, h2⟩ := hreq
          rw [← h1, ← h2]
          exact ⟨rfl, rfl⟩
/-- C1: when the first response triggers a refresh, the request is
retried exactly once, with the refreshed token, and never again: the call
issues exactly two requests, the first bearing the original token and the
second the refreshed one.  If the retry also returns 401 the call raises
`ApiError` with the second response's status and body and the stored
token is the refreshed one; if the retry returns 200 with valid data the
call returns the parsed records and the stored token is the refreshed
one, not the original.  The four resource methods are all instances of
this template (final conjuncts). -/
theorem c1_refresh_retry {α : Type} (c : Client) (endpoint field : String)
    (body : List (String × Json)) (validate : Json → Except BoltError α)
    (tok res : Nat → Resp) (t0 t1 : Json)
    (hc : c.access_token = some t0) (ht0 : t0.truthy = true)
    (htr : needsRefreshTrigger (res 0) = true)
    (hf : get_access_token (tok 0) = .ok t1) :
    ((runResource c endpoint body field validate tok res).requests =
       [⟨c.base_url ++ endpoint, t0, body⟩,
        ⟨c.base_url ++ endpoint, t1, body⟩]) ∧
    ((res 1).status = 401 →
       (runResource c endpoint body field validate tok res).result =
         .error (.apiError endpoint (res 1).status (res 1).text) ∧
       (runResource c endpoint body field validate tok res).client.access_token =
         some t1) ∧
    (∀ (kvs dkvs : List (String × Json)) (items : List Json) (rs : List α),
       (res 1).status = 200 → (res 1).jsonBody = some (.obj kvs) →
       kvs.lookup "data" = some (.obj dkvs) →
       dkvs.lookup field = some (.arr items) →
       mapValidate validate items = .ok rs →
       (runResource c endpoint body field validate tok res).result = .ok rs ∧
       (runResource c endpoint body field validate tok res).client.access_token =
         some t1) ∧
    (t1 ≠ t0 →
       (runResource c endpoint body field validate tok res).client.access_token ≠
         some t0) ∧
    (∀ off lim cids sts ets n1 n2,
       Client.get_fleet_orders c off lim cids sts ets n1 n2 tok res =
         runResource c "/getFleetOrders"
           (fleetOrdersBody off lim cids (defaultStartTs sts n1) (defaultEndTs ets n2))
           "orders" FleetOrder.validate tok res) ∧
    (∀ off lim cid pa sts ets n1 n2,
       Client.get_vehicles c off lim cid pa sts ets n1 n2 tok res =
         runResource c "/getVehicles"
           (vehiclesBody off lim cid (defaultStartTs sts n1) (defaultEndTs ets n2) pa)
           "vehicles" Vehicle.validate tok res) ∧
    (∀ off lim cid pa sts ets n1 n2,
       Client.get_drivers c off lim cid pa sts ets n1 n2 tok res =
         runResource c "/getDrivers"
           (driversBody off lim cid (defaultStartTs sts n1) (defaultEndTs ets n2) pa)
           "drivers" Driver.validate tok res) ∧
    (∀ off lim cid sts ets n1 n2,
       Client.get_fleet_state_logs c off lim cid sts ets n1 n2 tok res =
         runResource c "/getFleetStateLogs"
           (fleetStateLogsBody off lim cid (defaultStartTs sts n1) (defaultEndTs ets n2))
           "state_logs" FleetStateLog.validate tok res) := by
  have hrun := runResource_retry c endpoint field body validate tok res t0 t1
    hc ht0 htr hf
  refine ⟨?_, ?_, ?_, ?_, ?_, ?_, ?_, ?_⟩
  · rw [hrun]
  · intro h401
    rw [hrun]
    constructor
    · simpa using finalStep_not200 endpoint field validate (res 1) (by rw [h401]; decide)
    · rfl
  · intro kvs dkvs items rs h200 hbody hd hdf hmap
    rw [hrun]
    constructor
    · simpa [hmap] using
        finalStep_items endpoint field validate (res 1) kvs dkvs items h200 hbody hd hdf
    · rfl
  · intro hne
    rw [hrun]
    simp [hne]
  · intro off lim cids sts ets n1 n2; rfl
  · intro off lim cid pa sts ets n1 n2; rfl
  · intro off lim cid pa sts ets n1 n2; rfl
  · intro off lim cid sts ets n1 n2; rfl

/-- C1 witness: 401 on both attempts in a concrete world; the claim's
retry clause mirrors the second response's status and body and the token
ends at the refreshed value. -/
theorem c1_refresh_retry_witness :
    (runResource (⟨"id", "sec", "u", some (.str "t0")⟩ : Client) "/getFleetOrders"
        [] "orders" FleetOrder.validate
        (fun _ => ⟨200, some (.obj [("access_token", .str "t1")]), "ok"⟩)
        (fun n => if n = 0 then ⟨401, some (.obj []), "unauth"⟩
                  else ⟨401, some (.obj []), "unauth2"⟩)).result =
      .error (.apiError "/getFleetOrders" 401 "unauth2") ∧
    (runResource (⟨"id", "sec", "u", some (.str "t0")⟩ : Client) "/getFleetOrders"
        [] "orders" FleetOrder.validate
        (fun _ => ⟨200, some (.obj [("access_token", .str "t1")]), "ok"⟩)
        (fun n => if n = 0 then ⟨401, some (.obj []), "unauth"⟩
                  else ⟨401, some (.obj []), "unauth2"⟩)).client.access_token =
      some (.str "t1") :=
  (c1_refresh_retry (⟨"id", "sec", "u", some (.str "t0")⟩ : Client)
    "/getFleetOrders" "orders" [] FleetOrder.validate
    (fun _ => ⟨200, some (.obj [("access_token", .str "t1")]), "ok"⟩)
    (fun n => if n = 0 then ⟨401, some (.obj []), "unauth"⟩
              else ⟨401, some (.obj []), "unauth2"⟩)
    (.str "t0") (.str "t1") rfl rfl rfl rfl).2.1 rfl
/-- C2: `_refresh_token_if_needed` returns true on any 401 (whatever the
body), true on a JSON-object body with `code` 503 even under HTTP 200,
false on a 200 JSON object with neither, decides on status 401 alone when
the body is not JSON, and whenever it returns true it has stored the
result of a token fetch before returning. -/
theorem c2_needs_refresh (c : Client) (r : Resp) (tok : Nat → Resp) (i : Nat)
    (kvs : List (String × Json)) (t : Json)
    (hf : get_access_token (tok i) = .ok t) :
    (r.status = 401 → refresh_token_if_needed c r tok i =
        .ok (true, { c with access_token := some t }, i + 1)) ∧
    (r.status = 200 → r.jsonBody = some (.obj kvs) →
       kvs.lookup "code" = some (.num 503) →
       refresh_token_if_needed c r tok i =
         .ok (true, { c with access_token := some t }, i + 1)) ∧
    (r.status = 200 → r.jsonBody = some (.obj kvs) →
       (∀ v, kvs.lookup "code" = some v → v.isCode503 = false) →
       refresh_token_if_needed c r tok i = .ok (false, c, i)) ∧
    (r.jsonBody = none → r.status ≠ 401 →
       refresh_token_if_needed c r tok i = .ok (false, c, i)) ∧
    (∀ b c' i', refresh_token_if_needed c r tok i = .ok (b, c', i') →
       b = true →
       ∃ t', get_access_token (tok (i' - 1)) = .ok t' ∧
         c'.access_token = some t') := by
  refine ⟨?_, ?_, ?_, ?_, ?_⟩
  · intro h401
    exact refresh_of_trigger c r tok i t
      (by unfold needsRefreshTrigger; simp [h401]) hf
  · intro h200 hbody hcode
    refine refresh_of_trigger c r tok i t ?_ hf
    unfold needsRefreshTrigger
    simp [h200, hbody, hcode, Json.isCode503]
  · intro h200 hbody hcode
    refine refresh_of_no_trigger c r tok i ?_
    unfold needsRefreshTrigger
    simp only [h200, hbody]
    cases hl : kvs.lookup "code" with
    | none => simp [hl, Json.isCode503]
    | some v => simp [hl, hcode v hl]
  · intro hbody h401
    refine refresh_of_no_trigger c r tok i ?_
    unfold needsRefreshTrigger
    simp [hbody, h401]
  · intro b c' i' h hb
    subst hb
    rcases refresh_inv c r tok i true c' i' h with ⟨hb', _⟩ | ⟨_, t', hft, hcc⟩
    · simp at hb'
    · exact ⟨t', hft, by rw [hcc]⟩

/-- C2 witness: a 401 response with a refreshable world. -/
theorem c2_needs_refresh_witness :
    refresh_token_if_needed ⟨"id", "sec", "u", some (.str "t0")⟩
      ⟨401, none, "unauthorized"⟩
      (fun _ => ⟨200, some (.obj [("access_token", .str "t1")]), "ok"⟩) 0 =
      .ok (true, ⟨"id", "sec", "u", some (.str "t1")⟩, 1) :=
  (c2_needs_refresh ⟨"id", "sec", "u", some (.str "t0")⟩
    ⟨401, none, "unauthorized"⟩
    (fun _ => ⟨200, some (.obj [("access_token", .str "t1")]), "ok"⟩) 0
    [] (.str "t1") rfl).1 rfl
/-- C3 counterexample: a 200 token response whose body HAS the
`access_token` field, with value `""`.  The claim says that (the field
being present) the token string is returned; the code instead raises
"no token received" because `if not token:` treats the empty string as
missing. -/
theorem c3_counterexample :
    get_access_token ⟨200, some (.obj [("access_token", .str "")]), "body"⟩ =
      .error .noTokenError ∧
    ([(("access_token" : String), Json.str "")].lookup "access_token").isSome = true :=
  ⟨rfl, rfl⟩

/-- C3 (amended): `get_access_token` fails with `AuthError(status, body)`
on any non-200 status; on a 200 JSON-object body it fails with
"no token received" whenever the `access_token` field is missing or falsy
(e.g. the empty string), and returns the token whenever it is truthy.  It
takes no client state and returns only the token (pure in the response). -/
theorem c3_token_fetch (r : Resp) (kvs : List (String × Json)) :
    (r.status ≠ 200 → get_access_token r = .error (.authError r.status r.text)) ∧
    (r.status = 200 → r.jsonBody = some (.obj kvs) →
      (((kvs.lookup "access_token").getD Json.null).truthy = false →
          get_access_token r = .error .noTokenError) ∧
      (∀ t, kvs.lookup "access_token" = some t → t.truthy = true →
          get_access_token r = .ok t)) := by
  constructor
  · intro hst
    unfold get_access_token
    simp [hst]
  · intro h200 hbody
    constructor
    · intro hfal
      unfold get_access_token
      simp [h200, hbody, hfal]
    · intro t hl ht
      unfold get_access_token
      simp [h200, hbody, hl, ht]

/-- C3 witness: a 200 response carrying a non-empty token string. -/
theorem c3_token_fetch_witness :
    get_access_token ⟨200, some (.obj [("access_token", .str "tok")]), "ok"⟩ =
      .ok (.str "tok") :=
  ((c3_token_fetch ⟨200, some (.obj [("access_token", .str "tok")]), "ok"⟩
      [("access_token", .str "tok")]).2 rfl rfl).2 (.str "tok") rfl rfl
/-- C4: the code contradicts the claim (and its own comment, which scopes
the `except` branch to JSON-parse failures): on a 401 response with JSON
body, when the refresh inside the `try` block raises, the handler catches
it and makes a SECOND token-fetch attempt; here the first fetch fails with
status 500 and the second succeeds, so the call returns true having made
two token requests (final fetch index 2), the first `AuthError` swallowed.
Moreover on a 200/`code`-503 response a failed refresh is swallowed
entirely (returns false after one failed fetch). -/
theorem c4_second_fetch_attempt :
    refresh_token_if_needed ⟨"id", "sec", "u", some (.str "t0")⟩
      ⟨401, some (.obj []), "unauthorized"⟩
      (fun i => if i = 0 then ⟨500, none, "server error"⟩
                else ⟨200, some (.obj [("access_token", .str "t2")]), "ok"⟩) 0 =
      .ok (true, ⟨"id", "sec", "u", some (.str "t2")⟩, 2) ∧
    refresh_token_if_needed ⟨"id", "sec", "u", some (.str "t0")⟩
      ⟨200, some (.obj [("code", .num 503)]), "svc"⟩
      (fun _ => ⟨500, none, "server error"⟩) 0 =
      .ok (false, ⟨"id", "sec", "u", some (.str "t0")⟩, 1) :=
  ⟨rfl, rfl⟩
/-- C5: with both timestamps omitted each of the four methods sends
`end_ts = now` and `start_ts = now - 86400`; each default is computed
against the clock independently, so a supplied bound leaves the other
bound's default relative to `now`, not to the supplied value.  (`now` is
the clock reading at call time; the world is any in which the first
response needs no refresh.) -/
theorem c5_timestamp_defaults (c : Client) (t0 : Json) (off lim cid : Int)
    (cids : List Int) (pa : PortalStatusArg) (now s e : Int)
    (tok res : Nat → Resp)
    (hc : c.access_token = some t0) (ht0 : t0.truthy = true)
    (htr : needsRefreshTrigger (res 0) = false) :
    (requestTsFields (c.get_fleet_orders off lim cids none none now now tok res) =
       some (some (.num (now - 86400)), some (.num now))) ∧
    (requestTsFields (c.get_vehicles off lim cid pa none none now now tok res) =
       some (some (.num (now - 86400)), some (.num now))) ∧
    (requestTsFields (c.get_drivers off lim cid pa none none now now tok res) =
       some (some (.num (now - 86400)), some (.num now))) ∧
    (requestTsFields (c.get_fleet_state_logs off lim cid none none now now tok res) =
       some (some (.num (now - 86400)), some (.num now))) ∧
    (requestTsFields (c.get_fleet_orders off lim cids (some s) none now now tok res) =
       some (some (.num s), some (.num now))) ∧
    (requestTsFields (c.get_vehicles off lim cid pa (some s) none now now tok res) =
       some (some (.num s), some (.num now))) ∧
    (requestTsFields (c.get_drivers off lim cid pa (some s) none now now tok res) =
       some (some (.num s), some (.num now))) ∧
    (requestTsFields (c.get_fleet_state_logs off lim cid (some s) none now now tok res) =
       some (some (.num s), some (.num now))) ∧
    (requestTsFields (c.get_fleet_orders off lim cids none (some e) now now tok res) =
       some (some (.num (now - 86400)), some (.num e))) ∧
    (requestTsFields (c.get_vehicles off lim cid pa none (some e) now now tok res) =
       some (some (.num (now - 86400)), some (.num e))) ∧
    (requestTsFields (c.get_drivers off lim cid pa none (some e) now now tok res) =
       some (some (.num (now - 86400)), some (.num e))) ∧
    (requestTsFields (c.get_fleet_state_logs off lim cid none (some e) now now tok res) =
       some (some (.num (now - 86400)), some (.num e))) := by
  refine ⟨?_, ?_, ?_, ?_, ?_, ?_, ?_, ?_, ?_, ?_, ?_, ?_⟩ <;>
    simp only [Client.get_fleet_orders, Client.get_vehicles, Client.get_drivers,
      Client.get_fleet_state_logs] <;>
    rw [requestTsFields_runResource _ _ _ _ _ tok res t0 hc ht0 htr] <;>
    rfl

/-- C5 witness at a concrete world and clock. -/
theorem c5_timestamp_defaults_witness :
    requestTsFields ((⟨"id", "sec", "u", some (.str "t0")⟩ : Client).get_fleet_orders
        0 10 [1] none none 1000000 1000000 (fun _ => ⟨200, none, ""⟩)
        (fun _ => ⟨200, some (.obj []), "ok"⟩)) =
      some (some (.num (1000000 - 86400)), some (.num 1000000)) :=
  (c5_timestamp_defaults ⟨"id", "sec", "u", some (.str "t0")⟩ (.str "t0")
    0 10 0 [1] (.raw "active") 1000000 0 0 (fun _ => ⟨200, none, ""⟩)
    (fun _ => ⟨200, some (.obj []), "ok"⟩) rfl rfl rfl).1
/-- C6 counterexample: a successful (200) response whose `data` is
present but null — a malformed `data` wrapper — makes the resource method
raise (`AttributeError` from `.get` on `None`) instead of returning "no
results", contradicting the claim's "never as an error". -/
theorem c6_counterexample :
    ((fun _ => (⟨200, some (.obj [("data", .null)]), "body"⟩ : Resp)) (0 : Nat)).status
        = 200 ∧
    ((⟨"id", "sec", "u", some (.str "t0")⟩ : Client).get_fleet_orders
        0 10 [1] (some 0) (some 1) 0 0 (fun _ => ⟨200, none, ""⟩)
        (fun _ => ⟨200, some (.obj [("data", .null)]), "body"⟩)).result =
      .error .attributeError :=
  ⟨rfl, rfl⟩

/-- C6 (amended): for every resource method, a 200 response whose
JSON-object body has no `data` key, or whose `data` object lacks the
named list field, yields the empty list with no error.  The leniency is
key-absence only: a present `data` holding a non-object (e.g. null)
raises, per the counterexample. -/
theorem c6_missing_data_empty (c : Client) (t0 : Json) (off lim cid : Int)
    (cids : List Int) (pa : PortalStatusArg) (sts ets : Option Int)
    (n1 n2 : Int) (tok res : Nat → Resp) (kvs dkvs : List (String × Json))
    (hc : c.access_token = some t0) (ht0 : t0.truthy = true)
    (htr : needsRefreshTrigger (res 0) = false)
    (h200 : (res 0).status = 200)
    (hbody : (res 0).jsonBody = some (.obj kvs)) :
    (kvs.lookup "data" = none →
       (c.get_fleet_orders off lim cids sts ets n1 n2 tok res).result = .ok [] ∧
       (c.get_vehicles off lim cid pa sts ets n1 n2 tok res).result = .ok [] ∧
       (c.get_drivers off lim cid pa sts ets n1 n2 tok res).result = .ok [] ∧
       (c.get_fleet_state_logs off lim cid sts ets n1 n2 tok res).result = .ok []) ∧
    (kvs.lookup "data" = some (.obj dkvs) →
       (dkvs.lookup "orders" = none →
          (c.get_fleet_orders off lim cids sts ets n1 n2 tok res).result = .ok []) ∧
       (dkvs.lookup "vehicles" = none →
          (c.get_vehicles off lim cid pa sts ets n1 n2 tok res).result = .ok []) ∧
       (dkvs.lookup "drivers" = none →
          (c.get_drivers off lim cid pa sts ets n1 n2 tok res).result = .ok []) ∧
       (dkvs.lookup "state_logs" = none →
          (c.get_fleet_state_logs off lim cid sts ets n1 n2 tok res).result = .ok [])) := by
  have base : ∀ {α : Type} (endpoint field : String)
      (body : List (String × Json)) (validate : Json → Except BoltError α),
      (runResource c endpoint body field validate tok res).result =
        finalStep endpoint field validate (res 0) := by
    intro α endpoint field body validate
    rw [runResource_no_refresh c endpoint field body validate tok res t0 hc ht0 htr]
  constructor
  · intro hd
    refine ⟨?_, ?_, ?_, ?_⟩ <;>
      simp only [Client.get_fleet_orders, Client.get_vehicles, Client.get_drivers,
        Client.get_fleet_state_logs] <;>
      rw [base] <;>
      exact finalStep_no_data _ _ _ _ kvs h200 hbody hd
  · intro hd
    refine ⟨?_, ?_, ?_, ?_⟩ <;> intro hdf <;>
      simp only [Client.get_fleet_orders, Client.get_vehicles, Client.get_drivers,
        Client.get_fleet_state_logs] <;>
      rw [base] <;>
      exact finalStep_no_field _ _ _ _ kvs dkvs h200 hbody hd hdf

/-- C6 witness: a 200 response with body lacking `data` entirely yields
the empty list. -/
theorem c6_missing_data_empty_witness :
    ((⟨"id", "sec", "u", some (.str "t0")⟩ : Client).get_fleet_orders
        0 10 [1] (some 0) (some 1) 0 0 (fun _ => ⟨200, none, ""⟩)
        (fun _ => ⟨200, some (.obj [("other", .num 1)]), "body"⟩)).result =
      .ok [] :=
  ((c6_missing_data_empty (⟨"id", "sec", "u", some (.str "t0")⟩ : Client)
      (.str "t0") 0 10 0 [1] (.raw "active") (some 0) (some 1) 0 0
      (fun _ => ⟨200, none, ""⟩)
      (fun _ => ⟨200, some (.obj [("other", .num 1)]), "body"⟩)
      [("other", .num 1)] [] rfl rfl rfl rfl rfl).1 rfl).1
/-- C7: record construction fails with `ValidationError` when a required
field is missing (e.g. `model` on a vehicle) or a value cannot be coerced
(a non-UUID-shaped string for a UUID field, a non-numeric string for an
int field); a fully-populated mapping of the right shape round-trips every
field value unchanged; omitted optional fields default to the absent
marker (all-optional records validate from the empty mapping). -/
theorem c7_record_validation :
    (∀ kvs, kvs.lookup "model" = none →
       Vehicle.validate (.obj kvs) = .error .validationError) ∧
    (∀ kvs, kvs.lookup "uuid" = some (.str "not-a-uuid") →
       Vehicle.validate (.obj kvs) = .error .validationError) ∧
    (∀ kvs, kvs.lookup "year" = some (.str "abc") →
       Vehicle.validate (.obj kvs) = .error .validationError) ∧
    (∀ (id year : Int) (model reg u : String) (st : PortalStatus),
       isUUID u = true →
       Vehicle.validate (.obj [("id", .num id), ("model", .str model),
           ("year", .num year), ("reg_number", .str reg), ("uuid", .str u),
           ("state", .str st.value)]) =
         .ok ⟨id, model, year, reg, u, st⟩) ∧
    (∀ kvs, kvs.lookup "driver_uuid" = none →
       Driver.validate (.obj kvs) = .error .validationError) ∧
    (∀ (du pu fn ln em ph : String) (st : PortalStatus) (cash : Bool),
       isUUID du = true → isUUID pu = true →
       Driver.validate (.obj [("driver_uuid", .str du), ("partner_uuid", .str pu),
           ("first_name", .str fn), ("last_name", .str ln), ("email", .str em),
           ("phone", .str ph), ("state", .str st.value),
           ("has_cash_payment", .bool cash)]) =
         .ok ⟨du, pu, fn, ln, em, ph, st, cash⟩) ∧
    (∀ kvs, kvs.lookup "created" = none →
       FleetStateLog.validate (.obj kvs) = .error .validationError) ∧
    (∀ (created lat lng : Int) (st du vu : String),
       isUUID du = true → isUUID vu = true →
       FleetStateLog.validate (.obj [("created", .num created), ("state", .str st),
           ("driver_uuid", .str du), ("vehicle_uuid", .str vu),
           ("lat", .num lat), ("lng", .num lng)]) =
         .ok ⟨created, st, du, vu, lat, lng⟩) ∧
    (FleetOrder.validate (.obj []) =
       .ok ⟨none, none, none, none, none, none, none, none, none, none,
            none, none, none, none, none, none, none, none, none, none⟩) ∧
    (OrderStop.validate (.obj []) = .ok ⟨none, none, none, none, none⟩) ∧
    (OrderPrice.validate (.obj []) =
       .ok ⟨none, none, none, none, none, none, none, none, none⟩) ∧
    (∀ (oref dn pm du dp pu ost vm vlp prr pa sty : String)
       (pct octs rd oat opts odt oft slat slng srlat srlng : Int)
       (bf cf cd nearn tip com iad tf rp : Int),
       FleetOrder.validate (.obj [("order_reference", .str oref),
           ("driver_name", .str dn), ("payment_method", .str pm),
           ("driver_uuid", .str du), ("driver_phone", .str dp),
           ("partner_uuid", .str pu),
           ("payment_confirmed_timestamp", .num pct),
           ("order_created_timestamp", .num octs),
           ("order_status", .str ost), ("vehicle_model", .str vm),
           ("vehicle_license_plate", .str vlp),
           ("price_review_reason", .str prr), ("pickup_address", .str pa),
           ("ride_distance", .num rd),
           ("order_accepted_timestamp", .num oat),
           ("order_pickup_timestamp", .num opts),
           ("order_drop_off_timestamp", .num odt),
           ("order_finished_timestamp", .num oft),
           ("order_stops", .arr [.obj [("lat", .num slat), ("lng", .num slng),
              ("real_lat", .num srlat), ("real_lng", .num srlng),
              ("type", .str sty)]]),
           ("order_price", .obj [("booking_fee", .num bf),
              ("cancellation_fee", .num cf), ("cash_discount", .num cd),
              ("net_earnings", .num nearn), ("tip", .num tip),
              ("commission", .num com), ("in_app_discount", .num iad),
              ("toll_fee", .num tf), ("ride_price", .num rp)])]) =
         .ok ⟨some oref, some dn, some pm, some du, some dp, some pu,
              some pct, some octs, some ost, some vm, some vlp, some prr,
              some pa, some rd, some oat, some opts, some odt, some oft,
              some [⟨some slat, some slng, some srlat, some srlng, some sty⟩],
              some ⟨some bf, some cf, some cd, some nearn, some tip, some com,
                    some iad, some tf, some rp⟩⟩) := by
  refine ⟨?_, ?_, ?_, ?_, ?_, ?_, ?_, ?_, rfl, rfl, rfl, ?_⟩
  · intro kvs hm
    unfold Vehicle.validate
    cases hid : validateReqField kvs "id" coerceInt with
    | error e =>
      have he := validateReqField_error kvs "id" coerceInt e hid
      subst he
      simp [hid, except_bind_error]
    | ok v =>
      have hmod : validateReqField kvs "model" coerceStr = .error .validationError := by
        unfold validateReqField
        simp [hm]
      simp [hid, hmod, except_bind_ok, except_bind_error]
  · intro kvs hu
    unfold Vehicle.validate
    cases hid : validateReqField kvs "id" coerceInt with
    | error e =>
      have he := validateReqField_error kvs "id" coerceInt e hid
      subst he
      simp [hid, except_bind_error]
    | ok v =>
      cases hmod : validateReqField kvs "model" coerceStr with
      | error e =>
        have he := validateReqField_error kvs "model" coerceStr e hmod
        subst he
        simp [hid, hmod, except_bind_ok, except_bind_error]
      | ok m =>
        cases hyr : validateReqField kvs "year" coerceInt with
        | error e =>
          have he := validateReqField_error kvs "year" coerceInt e hyr
          subst he
          simp [hid, hmod, hyr, except_bind_ok, except_bind_error]
        | ok y =>
          cases hreg : validateReqField kvs "reg_number" coerceStr with
          | error e =>
            have he := validateReqField_error kvs "reg_number" coerceStr e hreg
            subst he
            simp [hid, hmod, hyr, hreg, except_bind_ok, except_bind_error]
          | ok r =>
            have huu : validateReqField kvs "uuid" coerceUUID =
                .error .validationError := by
              unfold validateReqField
              simp [hu, coerceUUID, show isUUID "not-a-uuid" = false from rfl]
            simp [hid, hmod, hyr, hreg, huu, except_bind_ok, except_bind_error]
  · intro kvs hy
    unfold Vehicle.validate
    cases hid : validateReqField kvs "id" coerceInt with
    | error e =>
      have he := validateReqField_error kvs "id" coerceInt e hid
      subst he
      simp [hid, except_bind_error]
    | ok v =>
      cases hmod : validateReqField kvs "model" coerceStr with
      | error e =>
        have he := validateReqField_error kvs "model" coerceStr e hmod
        subst he
        simp [hid, hmod, except_bind_ok, except_bind_error]
      | ok m =>
        have hyr : validateReqField kvs "year" coerceInt =
            .error .validationError := by
          unfold validateReqField
          simp [hy, coerceInt]
        simp [hid, hmod, hyr, except_bind_ok, except_bind_error]
  · intro id year model reg u st hu
    cases st <;>
      simp [Vehicle.validate, validateReqField, coerceInt, coerceStr, coerceUUID,
        coercePortal, PortalStatus.value, hu, List.lookup, except_bind_ok]
  · intro kvs hd
    unfold Driver.validate
    have hdu : validateReqField kvs "driver_uuid" coerceUUID =
        .error .validationError := by
      unfold validateReqField
      simp [hd]
    simp [hdu, except_bind_error]
  · intro du pu fn ln em ph st cash hdu hpu
    cases st <;>
      simp [Driver.validate, validateReqField, coerceStr, coerceUUID, coerceBool,
        coercePortal, PortalStatus.value, hdu, hpu, List.lookup, except_bind_ok]
  · intro kvs hc
    unfold FleetStateLog.validate
    have hcr : validateReqField kvs "created" coerceInt =
        .error .validationError := by
      unfold validateReqField
      simp [hc]
    simp [hcr, except_bind_error]
  · intro created lat lng st du vu hdu hvu
    simp [FleetStateLog.validate, validateReqField, coerceInt, coerceStr,
      coerceUUID, coerceFloat, hdu, hvu, List.lookup, except_bind_ok]
  · intro oref dn pm du dp pu ost vm vlp prr pa sty pct octs rd oat opts odt
      oft slat slng srlat srlng bf cf cd nearn tip com iad tf rp
    simp [FleetOrder.validate, OrderStop.validate, OrderPrice.validate,
      validateOptField, coerceInt, coerceStr, coerceFloat, coerceStops,
      coercePrice, mapValidate, List.lookup, except_bind_ok]

/-- C7 witness: a fully-populated vehicle mapping round-trips. -/
theorem c7_record_validation_witness :
    Vehicle.validate (.obj [("id", .num 1), ("model", .str "Toyota"),
        ("year", .num 2020), ("reg_number", .str "AB-123"),
        ("uuid", .str "123e4567-e89b-12d3-a456-426614174000"),
        ("state", .str PortalStatus.active.value)]) =
      .ok ⟨1, "Toyota", 2020, "AB-123",
           "123e4567-e89b-12d3-a456-426614174000", .active⟩ :=
  c7_record_validation.2.2.2.1 1 2020 "Toyota" "AB-123"
    "123e4567-e89b-12d3-a456-426614174000" .active rfl
/-- C8: `get_vehicles`/`get_drivers` accept the portal-status filter as
the enumeration or as a raw string, and in both cases the request body's
`portal_status` is the underlying string "active"/"inactive"; the final
conjuncts show the issued request carries exactly these bodies. -/
theorem c8_portal_status_forms (c : Client) (t0 : Json) (off lim cid : Int)
    (s e : Int) (sts ets : Option Int) (n1 n2 : Int) (pa : PortalStatusArg)
    (tok res : Nat → Resp)
    (hc : c.access_token = some t0) (ht0 : t0.truthy = true)
    (htr : needsRefreshTrigger (res 0) = false) :
    ((vehiclesBody off lim cid s e (.enum .active)).lookup "portal_status" =
       some (.str "active")) ∧
    ((vehiclesBody off lim cid s e (.enum .inactive)).lookup "portal_status" =
       some (.str "inactive")) ∧
    ((vehiclesBody off lim cid s e (.raw "active")).lookup "portal_status" =
       some (.str "active")) ∧
    ((vehiclesBody off lim cid s e (.raw "inactive")).lookup "portal_status" =
       some (.str "inactive")) ∧
    ((driversBody off lim cid s e (.enum .active)).lookup "portal_status" =
       some (.str "active")) ∧
    ((driversBody off lim cid s e (.enum .inactive)).lookup "portal_status" =
       some (.str "inactive")) ∧
    ((driversBody off lim cid s e (.raw "active")).lookup "portal_status" =
       some (.str "active")) ∧
    ((driversBody off lim cid s e (.raw "inactive")).lookup "portal_status" =
       some (.str "inactive")) ∧
    ((c.get_vehicles off lim cid pa sts ets n1 n2 tok res).requests =
       [⟨c.base_url ++ "/getVehicles", t0,
         vehiclesBody off lim cid (defaultStartTs sts n1) (defaultEndTs ets n2) pa⟩]) ∧
    ((c.get_drivers off lim cid pa sts ets n1 n2 tok res).requests =
       [⟨c.base_url ++ "/getDrivers", t0,
         driversBody off lim cid (defaultStartTs sts n1) (defaultEndTs ets n2) pa⟩]) := by
  refine ⟨rfl, rfl, rfl, rfl, rfl, rfl, rfl, rfl, ?_, ?_⟩
  · simp only [Client.get_vehicles]
    rw [runResource_no_refresh c "/getVehicles" "vehicles" _ _ tok res t0 hc ht0 htr]
  · simp only [Client.get_drivers]
    rw [runResource_no_refresh c "/getDrivers" "drivers" _ _ tok res t0 hc ht0 htr]

/-- C8 witness at a concrete world. -/
theorem c8_portal_status_forms_witness :
    (vehiclesBody 0 10 5 0 1 (.enum .active)).lookup "portal_status" =
      some (.str "active") :=
  (c8_portal_status_forms ⟨"id", "sec", "u", some (.str "t0")⟩ (.str "t0")
    0 10 5 0 1 none none 0 0 (.enum .active) (fun _ => ⟨200, none, ""⟩)
    (fun _ => ⟨200, some (.obj []), "ok"⟩) rfl rfl rfl).1
/-- C9: every resource method issues at most two requests, and when a
retry happens the second request targets the same URL with a
byte-identical body (same offset, limit, filters and the same
`start_ts`/`end_ts` — the defaults are computed once, before the first
attempt, and not recomputed on retry); only the bearer token can differ. -/
theorem c9_retry_identical_request (c : Client) (off lim cid : Int)
    (cids : List Int) (pa : PortalStatusArg) (sts ets : Option Int)
    (n1 n2 : Int) (tok res : Nat → Resp) :
    ((c.get_fleet_orders off lim cids sts ets n1 n2 tok res).requests.length ≤ 2 ∧
     (∀ r1 r2,
        (c.get_fleet_orders off lim cids sts ets n1 n2 tok res).requests = [r1, r2] →
        r1.url = r2.url ∧ r1.body = r2.body)) ∧
    ((c.get_vehicles off lim cid pa sts ets n1 n2 tok res).requests.length ≤ 2 ∧
     (∀ r1 r2,
        (c.get_vehicles off lim cid pa sts ets n1 n2 tok res).requests = [r1, r2] →
        r1.url = r2.url ∧ r1.body = r2.body)) ∧
    ((c.get_drivers off lim cid pa sts ets n1 n2 tok res).requests.length ≤ 2 ∧
     (∀ r1 r2,
        (c.get_drivers off lim cid pa sts ets n1 n2 tok res).requests = [r1, r2] →
        r1.url = r2.url ∧ r1.body = r2.body)) ∧
    ((c.get_fleet_state_logs off lim cid sts ets n1 n2 tok res).requests.length ≤ 2 ∧
     (∀ r1 r2,
        (c.get_fleet_state_logs off lim cid sts ets n1 n2 tok res).requests = [r1, r2] →
        r1.url = r2.url ∧ r1.body = r2.body)) :=
  ⟨runResource_requests_shape c "/getFleetOrders" "orders" _ FleetOrder.validate tok res,
   runResource_requests_shape c "/getVehicles" "vehicles" _ Vehicle.validate tok res,
   runResource_requests_shape c "/getDrivers" "drivers" _ Driver.validate tok res,
   runResource_requests_shape c "/getFleetStateLogs" "state_logs" _ FleetStateLog.validate tok res⟩

/-- C9 witness: in a concrete retrying world the two issued requests
share URL and body. -/
theorem c9_retry_identical_request_witness :
    (ResourceReq.mk ("u" ++ "/getFleetOrders") (.str "t0")
        (fleetOrdersBody 0 10 [1] 0 1)).url =
      (ResourceReq.mk ("u" ++ "/getFleetOrders") (.str "t1")
        (fleetOrdersBody 0 10 [1] 0 1)).url ∧
    (ResourceReq.mk ("u" ++ "/getFleetOrders") (.str "t0")
        (fleetOrdersBody 0 10 [1] 0 1)).body =
      (ResourceReq.mk ("u" ++ "/getFleetOrders") (.str "t1")
        (fleetOrdersBody 0 10 [1] 0 1)).body :=
  ((c9_retry_identical_request ⟨"id", "sec", "u", some (.str "t0")⟩ 0 10 0 [1]
      (.raw "active") (some 0) (some 1) 0 0
      (fun _ => ⟨200, some (.obj [("access_token", .str "t1")]), "ok"⟩)
      (fun n => if n = 0 then ⟨401, some (.obj []), "unauth"⟩
                else ⟨401, some (.obj []), "unauth2"⟩)).1.2
    (ResourceReq.mk ("u" ++ "/getFleetOrders") (.str "t0")
      (fleetOrdersBody 0 10 [1] 0 1))
    (ResourceReq.mk ("u" ++ "/getFleetOrders") (.str "t1")
      (fleetOrdersBody 0 10 [1] 0 1)) rfl)
/-- C10 counterexample: the claim says the stored token is always a
non-empty STRING, but no code path enforces string-ness: with a token
endpoint answering `access_token: 42`, construction succeeds and the
stored token is the (truthy, non-string) number 42. -/
theorem c10_counterexample :
    (Client.init "id" "sec" "u"
        (fun _ => ⟨200, some (.obj [("access_token", .num 42)]), "ok"⟩)).map
      (fun c => c.access_token) = .ok (some (.num 42)) ∧
    (Json.num 42).isStr = false :=
  ⟨rfl, rfl⟩

/-- C10 (amended): after construction succeeds the stored token is always
a truthy value (never `None`, never the empty string — though not
necessarily a string): token fetches only ever return truthy values,
construction stores one, every resource call leaves the client with a
truthy token whatever its outcome (including `ApiError` failures), and
`_ensure_token` treats a falsy held token as absent (fetching) and a
truthy one as present (no-op). -/
theorem c10_token_invariant :
    (∀ r t, get_access_token r = .ok t → t.truthy = true) ∧
    (∀ cid sec url tok c, Client.init cid sec url tok = .ok c →
       tokenOk c = true) ∧
    (∀ (c : Client) off lim cids sts ets n1 n2 tok res,
       tokenOk c = true →
       tokenOk (Client.get_fleet_orders c off lim cids sts ets n1 n2 tok res).client
         = true) ∧
    (∀ (c : Client) off lim cid pa sts ets n1 n2 tok res,
       tokenOk c = true →
       tokenOk (Client.get_vehicles c off lim cid pa sts ets n1 n2 tok res).client
         = true) ∧
    (∀ (c : Client) off lim cid pa sts ets n1 n2 tok res,
       tokenOk c = true →
       tokenOk (Client.get_drivers c off lim cid pa sts ets n1 n2 tok res).client
         = true) ∧
    (∀ (c : Client) off lim cid sts ets n1 n2 tok res,
       tokenOk c = true →
       tokenOk (Client.get_fleet_state_logs c off lim cid sts ets n1 n2 tok res).client
         = true) ∧
    (tokenAbsent none = true) ∧
    (tokenAbsent (some (.str "")) = true) ∧
    (∀ (c : Client) (tok : Nat → Resp) (i : Nat) (t : Json),
       tokenAbsent c.access_token = true →
       get_access_token (tok i) = .ok t →
       ensure_token c tok i = .ok ({ c with access_token := some t }, i + 1)) ∧
    (∀ (c : Client) (tok : Nat → Resp) (i : Nat),
       tokenOk c = true → ensure_token c tok i = .ok (c, i)) := by
  refine ⟨get_access_token_ok_truthy, ?_, ?_, ?_, ?_, ?_, rfl, rfl, ?_, ?_⟩
  · intro cid sec url tok c h
    unfold Client.init at h
    cases he : ensure_token ⟨cid, sec, url, none⟩ tok 0 with
    | error e => rw [he] at h; simp at h
    | ok p =>
      obtain ⟨c', i'⟩ := p
      rw [he] at h
      simp at h
      subst h
      exact ensure_token_ok_tokenOk _ _ tok 0 i' he
  · intro c off lim cids sts ets n1 n2 tok res h
    exact runResource_tokenOk c "/getFleetOrders" "orders" _ FleetOrder.validate tok res h
  · intro c off lim cid pa sts ets n1 n2 tok res h
    exact runResource_tokenOk c "/getVehicles" "vehicles" _ Vehicle.validate tok res h
  · intro c off lim cid pa sts ets n1 n2 tok res h
    exact runResource_tokenOk c "/getDrivers" "drivers" _ Driver.validate tok res h
  · intro c off lim cid sts ets n1 n2 tok res h
    exact runResource_tokenOk c "/getFleetStateLogs" "state_logs" _ FleetStateLog.validate tok res h
  · intro c tok i t habs hf
    unfold ensure_token
    simp [habs, hf]
  · exact ensure_token_of_tokenOk

/-- C10 witness: after a concrete successful construction the invariant
holds. -/
theorem c10_token_invariant_witness :
    tokenOk ⟨"id", "sec", "u", some (.str "T")⟩ = true :=
  c10_token_invariant.2.1 "id" "sec" "u"
    (fun _ => ⟨200, some (.obj [("access_token", .str "T")]), "ok"⟩)
    ⟨"id", "sec", "u", some (.str "T")⟩ rfl
